import Mathlib

/-!
Verification of the Jarvis staking contracts.

Shallow embedding of the reward-accounting and stake-lifecycle code of
`contracts/staking/programs/staking/src` (reward_math.rs, lib.rs, state.rs,
emergency.rs) and `contracts/kr8tiv-staking/programs/kr8tiv-staking/src/lib.rs`.

Machine integers are embedded as `Nat` (for the unsigned types u8/u64/u128)
and `Int` (for i64).  Checked arithmetic (`checked_mul` / `checked_add` /
`checked_sub`) is embedded as an explicit bounds test that aborts with the
same error the source raises; `saturating_sub` on unsigned types is `Nat`
truncated subtraction; Rust `as` casts between integer widths are embedded
as an explicit `% 2^w` reduction.  i64 timestamp arithmetic is embedded over
`Int`; theorems that depend on timestamps staying inside the i64 range carry
that bound as a hypothesis where it matters.  Fallible code returns `Except`.
-/

/-- Largest value of a Rust `u64`. -/
def U64MAX : Nat := 18446744073709551615

/-- Size of the Rust `u128` value space, `2^128`. -/
def U128MOD : Nat := 340282366920938463463374607431768211456

/-- Size of the Rust `u64` value space, `2^64`. -/
def U64MOD : Nat := 18446744073709551616

/-- Size of the Rust `u128` value space as an integer, `2^128`. -/
def U128MODI : Int := 340282366920938463463374607431768211456

/-- Embeds the Rust cast `x as u128` for a signed 64-bit quantity modelled as
`Int`: two's-complement reduction into `[0, 2^128)`. -/
def i64AsU128 (x : Int) : Nat := (x % (340282366920938463463374607431768211456 : Int)).toNat

/-- Embeds the Rust cast `x as u64` for a signed 64-bit quantity modelled as
`Int`: two's-complement reduction into `[0, 2^64)`. -/
def i64AsU64 (x : Int) : Nat := (x % (18446744073709551616 : Int)).toNat

/-- Embeds Rust `i64::saturating_sub`: the exact difference clamped to the
i64 range. -/
def i64SatSub (a b : Int) : Int :=
  max (-9223372036854775808) (min (a - b) 9223372036854775807)

namespace RewardMath

/-- Error codes of `reward_math.rs` (`RewardError`). -/
inductive RewardError where
  | Overflow
  | InvalidTimeRange
  | InvalidPercentage
  | DivisionByZero
deriving DecidableEq, Repr

/-- reward_math.rs: `PRECISION` (1e9). -/
def PRECISION : Nat := 1000000000

/-- reward_math.rs: `SECONDS_PER_DAY`. -/
def SECONDS_PER_DAY : Int := 86400

/-- reward_math.rs: `MULTIPLIER_BRONZE` (scaled by 100). -/
def MULTIPLIER_BRONZE : Nat := 100

/-- reward_math.rs: `MULTIPLIER_SILVER`. -/
def MULTIPLIER_SILVER : Nat := 150

/-- reward_math.rs: `MULTIPLIER_GOLD`. -/
def MULTIPLIER_GOLD : Nat := 200

/-- reward_math.rs: `MULTIPLIER_DIAMOND`. -/
def MULTIPLIER_DIAMOND : Nat := 250

/-- reward_math.rs: `TIER_BRONZE_END` (days). -/
def TIER_BRONZE_END : Int := 6

/-- reward_math.rs: `TIER_SILVER_END` (days). -/
def TIER_SILVER_END : Int := 29

/-- reward_math.rs: `TIER_GOLD_END` (days). -/
def TIER_GOLD_END : Int := 89

/-- reward_math.rs: `RewardCalculationInput`. -/
structure RewardCalculationInput where
  user_stake_amount : Nat
  stake_start_time : Int
  last_claim_time : Int
  current_time : Int
  global_reward_rate : Nat
  early_holder_bonus : Nat
deriving DecidableEq, Repr

/-- reward_math.rs: `TierDurations` (i64 seconds per tier). -/
structure TierDurations where
  bronze_seconds : Int := 0
  silver_seconds : Int := 0
  gold_seconds : Int := 0
  diamond_seconds : Int := 0
deriving DecidableEq, Repr

/-- reward_math.rs: `TierRewards`. -/
structure TierRewards where
  bronze_rewards : Nat := 0
  silver_rewards : Nat := 0
  gold_rewards : Nat := 0
  diamond_rewards : Nat := 0
deriving DecidableEq, Repr

/-- reward_math.rs: `RewardCalculationOutput`. -/
structure RewardCalculationOutput where
  total_pending_rewards : Nat
  rewards_per_tier : TierRewards
  effective_multiplier : Nat
  time_in_each_tier : TierDurations
deriving DecidableEq, Repr

/-- reward_math.rs: `get_multiplier_for_days`.  The Rust `match` tries the
ranges `0..=6`, `7..=29`, `30..=89` in order and sends everything else —
including negative day counts — to the diamond multiplier. -/
def get_multiplier_for_days (days : Int) : Nat :=
  if 0 ≤ days ∧ days ≤ 6 then MULTIPLIER_BRONZE
  else if 7 ≤ days ∧ days ≤ 29 then MULTIPLIER_SILVER
  else if 30 ≤ days ∧ days ≤ 89 then MULTIPLIER_GOLD
  else MULTIPLIER_DIAMOND

/-- reward_math.rs: `calculate_tier_durations`.  Splits the claim interval
`[last_claim_time, current_time]` at the absolute tier-boundary timestamps
`stake_start_time + (tier_end + 1) * 86400`. -/
def calculate_tier_durations (stake_start_time last_claim_time current_time : Int) :
    TierDurations :=
  let bronze_end := stake_start_time + (TIER_BRONZE_END + 1) * SECONDS_PER_DAY
  let silver_end := stake_start_time + (TIER_SILVER_END + 1) * SECONDS_PER_DAY
  let gold_end := stake_start_time + (TIER_GOLD_END + 1) * SECONDS_PER_DAY
  let bronze :=
    if last_claim_time < bronze_end then
      let s := last_claim_time
      let e := min current_time bronze_end
      if s < e then e - s else 0
    else 0
  let silver :=
    if bronze_end < current_time ∧ last_claim_time < silver_end then
      let s := max last_claim_time bronze_end
      let e := min current_time silver_end
      if s < e then e - s else 0
    else 0
  let gold :=
    if silver_end < current_time ∧ last_claim_time < gold_end then
      let s := max last_claim_time silver_end
      let e := min current_time gold_end
      if s < e then e - s else 0
    else 0
  let diamond :=
    if gold_end < current_time then
      let s := max last_claim_time gold_end
      let e := current_time
      if s < e then e - s else 0
    else 0
  { bronze_seconds := bronze, silver_seconds := silver,
    gold_seconds := gold, diamond_seconds := diamond }

/-- reward_math.rs: `calculate_tier_reward`.  The three u128 multiplications
are checked (abort with `Overflow` past `2^128`); the final conversion back
to u64 is `result.min(u64::MAX) as u64`, i.e. it saturates. -/
def calculate_tier_reward (stake_amount reward_rate : Nat) (seconds : Int)
    (multiplier : Nat) : Except RewardError Nat := do
  let stake := stake_amount
  let rate := reward_rate
  let time := i64AsU128 seconds
  let mult := multiplier
  let m1 := stake * rate
  if m1 ≥ U128MOD then throw .Overflow
  let m2 := m1 * time
  if m2 ≥ U128MOD then throw .Overflow
  let numerator := m2 * mult
  if numerator ≥ U128MOD then throw .Overflow
  let denominator := PRECISION * 100
  let result := numerator / denominator
  return min result U64MAX

/-- One tier of `calculate_tier_rewards`: reward_math.rs computes a tier
reward only when that tier's duration is positive, and leaves the
`Default` value 0 otherwise. -/
def tierBranch (stake_amount reward_rate : Nat) (seconds : Int)
    (multiplier : Nat) : Except RewardError Nat :=
  if 0 < seconds then
    calculate_tier_reward stake_amount reward_rate seconds multiplier
  else pure 0

/-- reward_math.rs: `calculate_tier_rewards`. -/
def calculate_tier_rewards (stake_amount reward_rate : Nat)
    (durations : TierDurations) (early_bonus : Nat) :
    Except RewardError TierRewards := do
  let bronze ← tierBranch stake_amount reward_rate durations.bronze_seconds
    (max MULTIPLIER_BRONZE early_bonus)
  let silver ← tierBranch stake_amount reward_rate durations.silver_seconds
    (max MULTIPLIER_SILVER early_bonus)
  let gold ← tierBranch stake_amount reward_rate durations.gold_seconds
    (max MULTIPLIER_GOLD early_bonus)
  let diamond ← tierBranch stake_amount reward_rate durations.diamond_seconds
    (max MULTIPLIER_DIAMOND early_bonus)
  return { bronze_rewards := bronze, silver_rewards := silver,
           gold_rewards := gold, diamond_rewards := diamond }

/-- Embeds Rust `u64::checked_add` (abort on a sum past `u64::MAX`). -/
def checkedAddU64 (a b : Nat) (e : RewardError) : Except RewardError Nat :=
  if a + b > U64MAX then throw e else pure (a + b)

/-- reward_math.rs: `calculate_rewards`. -/
def calculate_rewards (input : RewardCalculationInput) :
    Except RewardError RewardCalculationOutput := do
  if ¬ (input.last_claim_time ≤ input.current_time) then throw .InvalidTimeRange
  if ¬ (input.stake_start_time ≤ input.last_claim_time) then throw .InvalidTimeRange
  if input.user_stake_amount = 0 then
    return { total_pending_rewards := 0, rewards_per_tier := {},
             effective_multiplier := MULTIPLIER_BRONZE, time_in_each_tier := {} }
  let tier_durations := calculate_tier_durations input.stake_start_time
    input.last_claim_time input.current_time
  let tier_rewards ← calculate_tier_rewards input.user_stake_amount
    input.global_reward_rate tier_durations input.early_holder_bonus
  let t1 ← checkedAddU64 tier_rewards.bronze_rewards tier_rewards.silver_rewards .Overflow
  let t2 ← checkedAddU64 t1 tier_rewards.gold_rewards .Overflow
  let total ← checkedAddU64 t2 tier_rewards.diamond_rewards .Overflow
  let days_staked := Int.tdiv (input.current_time - input.stake_start_time) SECONDS_PER_DAY
  let effective_multiplier := max (get_multiplier_for_days days_staked)
    input.early_holder_bonus
  return { total_pending_rewards := total, rewards_per_tier := tier_rewards,
           effective_multiplier := effective_multiplier,
           time_in_each_tier := tier_durations }

/-- Total of the four tier durations. -/
def TierDurations.total (d : TierDurations) : Int :=
  d.bronze_seconds + d.silver_seconds + d.gold_seconds + d.diamond_seconds

/-- The exact mathematical per-tier reward named by the specification:
`stake * rate * seconds * multiplier / (PRECISION * 100)` (one exact
natural-number division, no width limit). -/
def exactTierReward (stake rate seconds multiplier : Nat) : Nat :=
  stake * rate * seconds * multiplier / (PRECISION * 100)

/-- Exact bronze-tier reward of an input, per the specification formula. -/
def specBronze (input : RewardCalculationInput) : Nat :=
  exactTierReward input.user_stake_amount input.global_reward_rate
    (calculate_tier_durations input.stake_start_time input.last_claim_time
      input.current_time).bronze_seconds.toNat
    (max MULTIPLIER_BRONZE input.early_holder_bonus)

/-- Exact silver-tier reward of an input, per the specification formula. -/
def specSilver (input : RewardCalculationInput) : Nat :=
  exactTierReward input.user_stake_amount input.global_reward_rate
    (calculate_tier_durations input.stake_start_time input.last_claim_time
      input.current_time).silver_seconds.toNat
    (max MULTIPLIER_SILVER input.early_holder_bonus)

/-- Exact gold-tier reward of an input, per the specification formula. -/
def specGold (input : RewardCalculationInput) : Nat :=
  exactTierReward input.user_stake_amount input.global_reward_rate
    (calculate_tier_durations input.stake_start_time input.last_claim_time
      input.current_time).gold_seconds.toNat
    (max MULTIPLIER_GOLD input.early_holder_bonus)

/-- Exact diamond-tier reward of an input, per the specification formula. -/
def specDiamond (input : RewardCalculationInput) : Nat :=
  exactTierReward input.user_stake_amount input.global_reward_rate
    (calculate_tier_durations input.stake_start_time input.last_claim_time
      input.current_time).diamond_seconds.toNat
    (max MULTIPLIER_DIAMOND input.early_holder_bonus)

/-- The exact reward total the specification describes: the per-tier exact
formula summed over the four tiers of the claim interval. -/
def specExactRewards (input : RewardCalculationInput) : Nat :=
  specBronze input + specSilver input + specGold input + specDiamond input

end RewardMath

/-- Order-of-effects marker for a user-facing instruction handler: a
validation (`require!`), a bookkeeping-state mutation, or an invocation of
the external ledger-transfer capability (token/lamport movement). -/
inductive Op where
  | validate
  | mutate
  | transfer (amount : Nat)
deriving DecidableEq, Repr

/-- True when the marker is a bookkeeping mutation. -/
def Op.isMutate : Op → Bool
  | .mutate => true
  | _ => false

/-- True when the marker is a validation. -/
def Op.isValidate : Op → Bool
  | .validate => true
  | _ => false

/-- Does some bookkeeping mutation occur strictly after some external
transfer in the given handler trace? -/
def hasMutateAfterTransfer : List Op → Bool
  | [] => false
  | Op.transfer _ :: rest => rest.any Op.isMutate || hasMutateAfterTransfer rest
  | _ :: rest => hasMutateAfterTransfer rest

/-- Does some validation occur strictly after some external transfer in the
given handler trace? -/
def hasValidateAfterTransfer : List Op → Bool
  | [] => false
  | Op.transfer _ :: rest => rest.any Op.isValidate || hasValidateAfterTransfer rest
  | _ :: rest => hasValidateAfterTransfer rest

namespace Staking

/-- Error codes of `staking/src/lib.rs` (`StakingError`). -/
inductive StakingError where
  | InvalidAmount
  | NoStake
  | AlreadyUnstaking
  | UnstakeNotRequested
  | CooldownNotComplete
  | NoRewards
  | Overflow
deriving DecidableEq, Repr

/-- lib.rs: the `Pool` account (accounting fields; the pubkey references and
the PDA bump play no role in the arithmetic and are omitted). -/
structure Pool where
  reward_rate : Nat
  cooldown_seconds : Int
  total_staked : Nat
  total_weight : Nat
  last_update : Int
  reward_per_weight : Nat
deriving DecidableEq, Repr

/-- lib.rs: the `UserStake` account (accounting fields). -/
structure UserStake where
  amount : Nat
  weight : Nat
  stake_time : Int
  reward_debt : Nat
  pending_rewards : Nat
  unstake_time : Int
deriving DecidableEq, Repr

/-- lib.rs: `calculate_multiplier` (argument is u64 `days`). -/
def calculate_multiplier (days : Nat) : Nat :=
  if days ≥ 90 then 250
  else if days ≥ 30 then 200
  else if days ≥ 7 then 150
  else 100

/-- lib.rs: `update_pool_rewards`.  Elapsed time is
`current_time.saturating_sub(pool.last_update) as u64`; the reward product
and the `10^12`-scaled delta are u128 checked multiplications; the
accumulator addition is a u128 checked add. -/
def update_pool_rewards (pool : Pool) (current_time : Int) :
    Except StakingError Pool := do
  if pool.total_weight = 0 then
    return { pool with last_update := current_time }
  let time_elapsed := i64AsU64 (i64SatSub current_time pool.last_update)
  if time_elapsed = 0 then
    return pool
  let rewards := time_elapsed * pool.reward_rate
  if rewards ≥ U128MOD then throw .Overflow
  let scaled := rewards * 1000000000000
  if scaled ≥ U128MOD then throw .Overflow
  if pool.total_weight = 0 then throw .Overflow
  let reward_per_weight_delta := scaled / pool.total_weight
  if pool.reward_per_weight + reward_per_weight_delta ≥ U128MOD then throw .Overflow
  return { pool with
    reward_per_weight := pool.reward_per_weight + reward_per_weight_delta,
    last_update := current_time }

/-- The `(user.weight as u128 * pool.reward_per_weight / 10^12) as u64`
quantity that lib.rs computes in `calculate_pending`, `stake` and
`claim_rewards` (the trailing cast truncates mod `2^64`). -/
def accumulatedShare (pool : Pool) (u : UserStake) : Nat :=
  (u.weight * pool.reward_per_weight / 1000000000000) % U64MOD

/-- lib.rs: `calculate_pending`.  Checked u128 multiply, checked divide,
truncating cast to u64, then `saturating_sub` of the reward debt. -/
def calculate_pending (pool : Pool) (u : UserStake) :
    Except StakingError Nat := do
  if u.weight * pool.reward_per_weight ≥ U128MOD then throw .Overflow
  let accumulated := (u.weight * pool.reward_per_weight / 1000000000000) % U64MOD
  return accumulated - u.reward_debt

/-- lib.rs: the `stake` handler, with its order of effects recorded as an
`Op` trace: `require!(amount > 0)`; settle the pool; initialize or settle
the user stake; **invoke the token transfer into the vault**; then update
`amount`/`weight`/`reward_debt` and the pool totals. -/
def stake (pool : Pool) (u : UserStake) (amount : Nat) (now : Int) :
    Except StakingError ((Pool × UserStake) × List Op) := do
  if amount = 0 then throw .InvalidAmount
  let pool1 ← update_pool_rewards pool now
  let u1 ←
    if u.amount = 0 then
      pure { u with stake_time := now, reward_debt := 0,
                    pending_rewards := 0, unstake_time := 0 }
    else do
      let pending ← calculate_pending pool1 u
      if u.pending_rewards + pending > U64MAX then throw .Overflow
      pure { u with pending_rewards := u.pending_rewards + pending }
  -- token::transfer(user_token_account -> stake_vault, amount) happens here
  let multiplier := calculate_multiplier 0
  if amount * multiplier ≥ U128MOD then throw .Overflow
  let weight := (amount * multiplier / 100) % U64MOD
  if u1.amount + amount > U64MAX then throw .Overflow
  if u1.weight + weight > U64MAX then throw .Overflow
  let u2 := { u1 with amount := u1.amount + amount, weight := u1.weight + weight }
  if u2.weight * pool1.reward_per_weight ≥ U128MOD then throw .Overflow
  let u3 := { u2 with reward_debt := accumulatedShare pool1 u2 }
  if pool1.total_staked + amount > U64MAX then throw .Overflow
  if pool1.total_weight + weight > U64MAX then throw .Overflow
  let pool2 := { pool1 with total_staked := pool1.total_staked + amount,
                            total_weight := pool1.total_weight + weight }
  return ((pool2, u3),
    [.validate, .mutate, .mutate, .transfer amount, .mutate])

/-- lib.rs: the `claim_rewards` handler with its order of effects:
`require!(amount > 0)`; settle the pool; recompute the weight from the
elapsed days and (when it grew) bump `user.weight`/`pool.total_weight`;
compute total pending and `require!(total > 0)`; **move the reward
lamports**; then rewrite `reward_debt` and zero `pending_rewards`.
`days_staked as u64` wraps a negative day count. -/
def claim_rewards (pool : Pool) (u : UserStake) (now : Int) :
    Except StakingError ((Pool × UserStake) × List Op) := do
  if u.amount = 0 then throw .NoStake
  let pool1 ← update_pool_rewards pool now
  let days_staked := Int.tdiv (now - u.stake_time) 86400
  let new_multiplier := calculate_multiplier (i64AsU64 days_staked)
  if u.amount * new_multiplier ≥ U128MOD then throw .Overflow
  let new_weight := (u.amount * new_multiplier / 100) % U64MOD
  let weightBumped := decide (new_weight > u.weight)
  let (pool2, u1) ←
    if new_weight > u.weight then do
      let weight_diff := new_weight - u.weight
      if pool1.total_weight + weight_diff > U64MAX then throw .Overflow
      pure ({ pool1 with total_weight := pool1.total_weight + weight_diff },
            { u with weight := new_weight })
    else
      pure (pool1, u)
  let pending ← calculate_pending pool2 u1
  if u1.pending_rewards + pending > U64MAX then throw .Overflow
  let total_rewards := u1.pending_rewards + pending
  if total_rewards = 0 then throw .NoRewards
  -- lamport transfer reward_vault -> user happens here
  if u1.weight * pool2.reward_per_weight ≥ U128MOD then throw .Overflow
  let u2 := { u1 with reward_debt := accumulatedShare pool2 u1,
                      pending_rewards := 0 }
  return ((pool2, u2),
    [.validate, .mutate] ++ (if weightBumped then [.mutate] else [])
      ++ [.validate, .transfer total_rewards, .mutate])

end Staking

namespace Kr8tiv

/-- Error codes of `kr8tiv-staking/src/lib.rs` (`StakingError`). -/
inductive KError where
  | InvalidAmount
  | PoolPaused
  | InsufficientStake
  | CooldownActive
  | NoCooldownActive
  | CooldownNotComplete
  | NoRewardsToClaim
  | InsufficientRewardBalance
  | NoTokensToWithdraw
  | MathOverflow
deriving DecidableEq, Repr

/-- kr8tiv lib.rs: `COOLDOWN_DURATION` (3 days of seconds). -/
def COOLDOWN_DURATION : Nat := 259200

/-- kr8tiv lib.rs: `MULTIPLIER_PRECISION` (1e6). -/
def MULTIPLIER_PRECISION : Nat := 1000000

/-- kr8tiv lib.rs: `TIER_1_THRESHOLD` (7 days of seconds). -/
def TIER_1_THRESHOLD : Nat := 604800

/-- kr8tiv lib.rs: `TIER_2_THRESHOLD` (30 days of seconds). -/
def TIER_2_THRESHOLD : Nat := 2592000

/-- kr8tiv lib.rs: `TIER_3_THRESHOLD` (90 days of seconds). -/
def TIER_3_THRESHOLD : Nat := 7776000

/-- kr8tiv lib.rs: `MULTIPLIER_BASE` (1.0x at scale 1e6). -/
def MULTIPLIER_BASE : Nat := 1000000

/-- kr8tiv lib.rs: `MULTIPLIER_TIER_1` (1.5x). -/
def MULTIPLIER_TIER_1 : Nat := 1500000

/-- kr8tiv lib.rs: `MULTIPLIER_TIER_2` (2.0x). -/
def MULTIPLIER_TIER_2 : Nat := 2000000

/-- kr8tiv lib.rs: `MULTIPLIER_TIER_3` (2.5x). -/
def MULTIPLIER_TIER_3 : Nat := 2500000

/-- kr8tiv lib.rs: the `StakingPool` account (accounting fields; the
timestamps of this variant are `u64`). -/
structure StakingPool where
  reward_rate : Nat
  total_staked : Nat
  reward_per_token_stored : Nat
  last_update_time : Nat
  paused : Bool
deriving DecidableEq, Repr

/-- kr8tiv lib.rs: the `UserStake` account. -/
structure UserStake where
  amount : Nat
  stake_start_time : Nat
  last_stake_time : Nat
  reward_per_token_paid : Nat
  pending_rewards : Nat
  total_rewards_claimed : Nat
  cooldown_amount : Nat
  cooldown_end : Nat
deriving DecidableEq, Repr

/-- kr8tiv lib.rs: `update_rewards`.  `now.saturating_sub(last_update_time)`
in u64, u128 checked multiplications, truncating `as u64` cast of the
increase, then a u64 checked add onto `reward_per_token_stored`. -/
def update_rewards (pool : StakingPool) (now : Nat) :
    Except KError StakingPool := do
  if 0 < pool.total_staked then
    let time_elapsed := now - pool.last_update_time
    let new_rewards := pool.reward_rate * time_elapsed
    if new_rewards ≥ U128MOD then throw .MathOverflow
    let scaled := new_rewards * 1000000000
    if scaled ≥ U128MOD then throw .MathOverflow
    if pool.total_staked = 0 then throw .MathOverflow
    let reward_per_token_increase := scaled / pool.total_staked
    let incU64 := reward_per_token_increase % U64MOD
    if pool.reward_per_token_stored + incU64 > U64MAX then throw .MathOverflow
    return { pool with
      reward_per_token_stored := pool.reward_per_token_stored + incU64,
      last_update_time := now }
  else
    return { pool with last_update_time := now }

/-- kr8tiv lib.rs: `calculate_pending_rewards` (the `_now` argument is
unused in the source).  Saturating subtraction of `reward_per_token_paid`,
u128 checked multiply, checked divide by 1e9, truncating cast to u64. -/
def calculate_pending_rewards (pool : StakingPool) (u : UserStake) :
    Except KError Nat := do
  if u.amount = 0 then
    return 0
  let reward_per_token_diff := pool.reward_per_token_stored - u.reward_per_token_paid
  if u.amount * reward_per_token_diff ≥ U128MOD then throw .MathOverflow
  return (u.amount * reward_per_token_diff / 1000000000) % U64MOD

/-- kr8tiv lib.rs: `get_time_multiplier`. -/
def get_time_multiplier (stake_start now : Nat) : Nat :=
  if stake_start = 0 then MULTIPLIER_BASE
  else
    let duration := now - stake_start
    if duration ≥ TIER_3_THRESHOLD then MULTIPLIER_TIER_3
    else if duration ≥ TIER_2_THRESHOLD then MULTIPLIER_TIER_2
    else if duration ≥ TIER_1_THRESHOLD then MULTIPLIER_TIER_1
    else MULTIPLIER_BASE

/-- kr8tiv lib.rs: the `stake` handler with its order of effects:
`require!(amount > 0)`, `require!(!paused)`; settle the pool; settle the
user's pending rewards (or record the first-stake start time); **invoke the
token transfer into the vault**; then update the user amount, the paid
accumulator snapshot and the pool total. -/
def stake (pool : StakingPool) (u : UserStake) (amount : Nat) (now : Nat) :
    Except KError ((StakingPool × UserStake) × List Op) := do
  if amount = 0 then throw .InvalidAmount
  if pool.paused then throw .PoolPaused
  let pool1 ← update_rewards pool now
  let u1 ←
    if 0 < u.amount then do
      let pending ← calculate_pending_rewards pool1 u
      if u.pending_rewards + pending > U64MAX then throw .MathOverflow
      pure { u with pending_rewards := u.pending_rewards + pending }
    else
      pure { u with stake_start_time := now }
  -- token::transfer(user_token_account -> staking_vault, amount) happens here
  if u1.amount + amount > U64MAX then throw .MathOverflow
  let u2 := { u1 with amount := u1.amount + amount,
                      reward_per_token_paid := pool1.reward_per_token_stored,
                      last_stake_time := now }
  if pool1.total_staked + amount > U64MAX then throw .MathOverflow
  let pool2 := { pool1 with total_staked := pool1.total_staked + amount }
  return ((pool2, u2),
    [.validate, .validate, .mutate, .mutate, .transfer amount, .mutate])

/-- kr8tiv lib.rs: the `initiate_unstake` handler. -/
def initiate_unstake (pool : StakingPool) (u : UserStake) (amount : Nat)
    (now : Nat) : Except KError (StakingPool × UserStake) := do
  if amount = 0 then throw .InvalidAmount
  if ¬ (amount ≤ u.amount) then throw .InsufficientStake
  if ¬ (u.cooldown_end = 0) then throw .CooldownActive
  let pool1 ← update_rewards pool now
  let pending ← calculate_pending_rewards pool1 u
  if u.pending_rewards + pending > U64MAX then throw .MathOverflow
  let u1 := { u with
    pending_rewards := u.pending_rewards + pending,
    reward_per_token_paid := pool1.reward_per_token_stored,
    cooldown_amount := amount,
    cooldown_end := now + COOLDOWN_DURATION }
  return (pool1, u1)

/-- kr8tiv lib.rs: the `complete_unstake` handler.  Requires
`cooldown_amount > 0` and `now ≥ cooldown_end`; settles rewards; transfers
the principal back; subtracts the cooldown amount from the user stake and
pool total with checked subtraction; clears the cooldown fields and, on a
full exit, the stake start time. -/
def complete_unstake (pool : StakingPool) (u : UserStake) (now : Nat) :
    Except KError (StakingPool × UserStake) := do
  if u.cooldown_amount = 0 then throw .NoCooldownActive
  if now < u.cooldown_end then throw .CooldownNotComplete
  let amount := u.cooldown_amount
  let pool1 ← update_rewards pool now
  let pending ← calculate_pending_rewards pool1 u
  if u.pending_rewards + pending > U64MAX then throw .MathOverflow
  -- token::transfer(staking_vault -> user_token_account, amount) happens here
  if u.amount < amount then throw .MathOverflow
  let newAmount := u.amount - amount
  let u1 := { u with
    amount := newAmount,
    pending_rewards := u.pending_rewards + pending,
    cooldown_amount := 0,
    cooldown_end := 0,
    reward_per_token_paid := pool1.reward_per_token_stored,
    stake_start_time := if newAmount = 0 then 0 else u.stake_start_time }
  if pool1.total_staked < amount then throw .MathOverflow
  let pool2 := { pool1 with total_staked := pool1.total_staked - amount }
  return (pool2, u1)

/-- kr8tiv lib.rs: the `claim_rewards` handler.  Settles, requires a
positive total, applies the time-weighted multiplier at scale 1e6, checks
the reward vault's lamport balance before moving lamports, then zeroes
`pending_rewards`, snapshots `reward_per_token_paid` and accumulates
`total_rewards_claimed`.  Returns the final pool, user and vault balance. -/
def claim_rewards (pool : StakingPool) (u : UserStake)
    (vaultLamports : Nat) (now : Nat) :
    Except KError (StakingPool × UserStake × Nat) := do
  let pool1 ← update_rewards pool now
  let pending ← calculate_pending_rewards pool1 u
  if u.pending_rewards + pending > U64MAX then throw .MathOverflow
  let total_rewards := u.pending_rewards + pending
  if total_rewards = 0 then throw .NoRewardsToClaim
  let multiplier := get_time_multiplier u.stake_start_time now
  if total_rewards * multiplier ≥ U128MOD then throw .MathOverflow
  let final_rewards := (total_rewards * multiplier / MULTIPLIER_PRECISION) % U64MOD
  if vaultLamports < final_rewards then throw .InsufficientRewardBalance
  -- lamport transfer reward_vault -> user happens here
  if u.total_rewards_claimed + final_rewards > U64MAX then throw .MathOverflow
  let u1 := { u with
    pending_rewards := 0,
    reward_per_token_paid := pool1.reward_per_token_stored,
    total_rewards_claimed := u.total_rewards_claimed + final_rewards }
  return (pool1, u1, vaultLamports - final_rewards)

end Kr8tiv

namespace Emergency

/-- Error codes of `emergency.rs` (`EmergencyError`). -/
inductive EmergencyError where
  | Unauthorized
  | StakingPaused
  | InEmergencyMode
  | NotInEmergencyMode
  | AlreadyExecuted
  | ActionExpired
  | AlreadyApproved
  | InsufficientApprovals
deriving DecidableEq, Repr

/-- emergency.rs: the `EmergencyAction` tag. -/
inductive EmergencyAction where
  | PauseNewStakes
  | PauseAll
  | Resume
  | EnableEmergencyMode
  | EmergencyUnstake
  | AdminWithdraw
  | GradualShutdown
  | Propose
  | Approve
  | Execute
deriving DecidableEq, Repr

/-- state.rs: the `GlobalPool` account (accounting fields; identities are
modelled as `Nat`). -/
structure GlobalPool where
  total_staked : Nat
  total_stakers : Nat
  total_rewards_distributed : Nat
  reward_rate : Nat
  is_paused : Bool
  emergency_mode : Bool
  last_update_time : Int
deriving DecidableEq, Repr

/-- state.rs: the `UserStake` account used by emergency.rs. -/
structure UserStake where
  owner : Nat
  staked_amount : Nat
  stake_start_time : Int
  last_claim_time : Int
  pending_rewards : Nat
  unstake_requested : Bool
  unstake_available_time : Int
  early_holder_tier : Nat
  total_claimed : Nat
deriving DecidableEq, Repr

/-- state.rs: the `AdminAuthority` account. -/
structure AdminAuthority where
  primary_admin : Nat
  secondary_admin : Nat
  emergency_admin : Nat
  required_signatures : Nat
  multisig_enabled : Bool
deriving DecidableEq, Repr

/-- state.rs: `AdminAuthority::is_admin`. -/
def AdminAuthority.is_admin (a : AdminAuthority) (k : Nat) : Bool :=
  k == a.primary_admin || k == a.secondary_admin || k == a.emergency_admin

/-- state.rs: `AdminAuthority::can_emergency`. -/
def AdminAuthority.can_emergency (a : AdminAuthority) (k : Nat) : Bool :=
  a.is_admin k

/-- state.rs: `AdminAuthority::can_critical`. -/
def AdminAuthority.can_critical (a : AdminAuthority) (k : Nat) : Bool :=
  k == a.primary_admin

/-- emergency.rs: the `PendingEmergencyAction` account. -/
structure PendingEmergencyAction where
  action : EmergencyAction
  proposer : Nat
  proposed_at : Int
  expires_at : Int
  approvals : List Nat
  required_approvals : Nat
  executed : Bool
deriving DecidableEq, Repr

/-- emergency.rs: `PendingEmergencyAction::is_approved`. -/
def PendingEmergencyAction.is_approved (p : PendingEmergencyAction) : Bool :=
  decide (p.required_approvals ≤ p.approvals.length)

/-- emergency.rs: `PendingEmergencyAction::has_approved`. -/
def PendingEmergencyAction.has_approved (p : PendingEmergencyAction) (k : Nat) : Bool :=
  p.approvals.contains k

/-- state.rs: `UserStake::get_multiplier`.  Days staked are computed with
Rust's truncating i64 division; the time tier is combined with the early
holder bonus by taking the maximum. -/
def UserStake.get_multiplier (u : UserStake) (current_time : Int) : Nat :=
  let days_staked := Int.tdiv (current_time - u.stake_start_time) 86400
  let base_multiplier : Nat :=
    if 0 ≤ days_staked ∧ days_staked ≤ 6 then 100
    else if 7 ≤ days_staked ∧ days_staked ≤ 29 then 150
    else if 30 ≤ days_staked ∧ days_staked ≤ 89 then 200
    else 250
  let early_bonus : Nat :=
    if u.early_holder_tier = 3 then 300
    else if u.early_holder_tier = 2 then 200
    else if u.early_holder_tier = 1 then 150
    else 100
  max base_multiplier early_bonus

/-- emergency.rs: `emergency_unstake`.  Requires emergency mode and that
the signer owns the stake; zeroes the staked amount and the pending
rewards (explicit forfeiture, no settlement), and decrements the pool
totals with `saturating_sub`.  Returns the withdrawn amount. -/
def emergency_unstake (pool : GlobalPool) (u : UserStake) (caller : Nat) :
    Except EmergencyError (GlobalPool × UserStake × Nat) := do
  if ¬ pool.emergency_mode then throw .NotInEmergencyMode
  if ¬ (u.owner = caller) then throw .Unauthorized
  let amount := u.staked_amount
  let u1 := { u with staked_amount := 0, pending_rewards := 0 }
  let pool1 := { pool with
    total_staked := pool.total_staked - amount,
    total_stakers := pool.total_stakers - 1 }
  return (pool1, u1, amount)

/-- emergency.rs: `propose_emergency_action`.  Requires an admin signer;
rewrites the pending record with the proposer auto-approving, a 48-hour
expiry and the configured approval threshold. -/
def propose_emergency_action (admin : AdminAuthority) (signer : Nat)
    (action : EmergencyAction) (now : Int) :
    Except EmergencyError PendingEmergencyAction := do
  if ¬ admin.is_admin signer then throw .Unauthorized
  return { action := action, proposer := signer, proposed_at := now,
           expires_at := now + 172800, approvals := [signer],
           required_approvals := admin.required_signatures, executed := false }

/-- emergency.rs: `approve_emergency_action`.  Requires an admin signer, a
not-yet-executed action, a current time strictly before the expiry and a
signer who has not already approved; pushes the signer onto the approval
list and returns whether the threshold is now met. -/
def approve_emergency_action (pending : PendingEmergencyAction)
    (admin : AdminAuthority) (signer : Nat) (now : Int) :
    Except EmergencyError (PendingEmergencyAction × Bool) := do
  if ¬ admin.is_admin signer then throw .Unauthorized
  if pending.executed then throw .AlreadyExecuted
  if ¬ (now < pending.expires_at) then throw .ActionExpired
  if pending.has_approved signer then throw .AlreadyApproved
  let p1 := { pending with approvals := pending.approvals ++ [signer] }
  return (p1, p1.is_approved)

/-- A `PendingEmergencyAction` state reachable through the multisig
workflow of emergency.rs: created by `propose_emergency_action` and then
mutated only by successful `approve_emergency_action` calls. -/
inductive Reachable (admin : AdminAuthority) : PendingEmergencyAction → Prop where
  | propose (signer : Nat) (action : EmergencyAction) (now : Int)
      (pd : PendingEmergencyAction) :
      propose_emergency_action admin signer action now = .ok pd →
      Reachable admin pd
  | approve (pd : PendingEmergencyAction) (signer : Nat) (now : Int)
      (pd' : PendingEmergencyAction) (b : Bool) :
      Reachable admin pd →
      approve_emergency_action pd admin signer now = .ok (pd', b) →
      Reachable admin pd'

end Emergency

/-- C1: for any timestamps with `stake_start_time ≤ last_claim_time ≤
current_time`, the four per-tier durations computed by
`calculate_tier_durations` sum exactly to `current_time - last_claim_time`. -/
theorem C1_tier_durations_sum (ss lc cur : Int) (h1 : ss ≤ lc) (h2 : lc ≤ cur) :
    (RewardMath.calculate_tier_durations ss lc cur).total = cur - lc := by
  simp only [RewardMath.calculate_tier_durations, RewardMath.TierDurations.total,
    RewardMath.TIER_BRONZE_END, RewardMath.TIER_SILVER_END, RewardMath.TIER_GOLD_END,
    RewardMath.SECONDS_PER_DAY]
  split_ifs <;> omega

/-- Witness for C1 at a concrete 30-day claim interval. -/
theorem C1_tier_durations_sum_witness :
    (0 : Int) ≤ 0 ∧ (0 : Int) ≤ 2592000 ∧
    (RewardMath.calculate_tier_durations 0 0 2592000).total = 2592000 - 0 :=
  ⟨by decide, by decide, C1_tier_durations_sum 0 0 2592000 (by decide) (by decide)⟩

/-- Helper: the kr8tiv time multiplier is bounded by the diamond tier. -/
theorem Kr8tiv.get_time_multiplier_le (s n : Nat) :
    Kr8tiv.get_time_multiplier s n ≤ 2500000 := by
  simp only [Kr8tiv.get_time_multiplier, Kr8tiv.MULTIPLIER_BASE,
    Kr8tiv.MULTIPLIER_TIER_1, Kr8tiv.MULTIPLIER_TIER_2, Kr8tiv.MULTIPLIER_TIER_3]
  split_ifs <;> omega

/-- C2: whenever `update_pool_rewards` (staking) or `update_rewards`
(kr8tiv) returns successfully, the pool's reward-per-weight accumulator
(`reward_per_weight` / `reward_per_token_stored`) is greater than or equal
to its value before the call. -/
theorem C2_reward_accumulator_monotone :
    (∀ (pool p1 : Staking.Pool) (t : Int),
      Staking.update_pool_rewards pool t = .ok p1 →
      pool.reward_per_weight ≤ p1.reward_per_weight) ∧
    (∀ (pool p1 : Kr8tiv.StakingPool) (t : Nat),
      Kr8tiv.update_rewards pool t = .ok p1 →
      pool.reward_per_token_stored ≤ p1.reward_per_token_stored) := by
  constructor
  · intro pool p1 t h
    unfold Staking.update_pool_rewards at h
    simp only [bind, Except.bind, pure, Except.pure] at h
    repeat' split at h
    all_goals injection h
    all_goals subst_vars
    all_goals (simp; try omega)
  · intro pool p1 t h
    unfold Kr8tiv.update_rewards at h
    simp only [bind, Except.bind, pure, Except.pure] at h
    repeat' split at h
    all_goals injection h
    all_goals subst_vars
    all_goals (simp; try omega)

/-- Witness for C2 at concrete pools: one settlement step of each variant. -/
theorem C2_reward_accumulator_monotone_witness :
    Staking.update_pool_rewards ⟨1, 259200, 10, 10, 0, 7⟩ 5 =
      .ok ⟨1, 259200, 10, 10, 5, 500000000007⟩ ∧
    (7 : Nat) ≤ (500000000007 : Nat) ∧
    Kr8tiv.update_rewards ⟨2, 4, 9, 0, false⟩ 6 = .ok ⟨2, 4, 3000000009, 6, false⟩ ∧
    (9 : Nat) ≤ (3000000009 : Nat) :=
  ⟨rfl,
   C2_reward_accumulator_monotone.1 ⟨1, 259200, 10, 10, 0, 7⟩
     ⟨1, 259200, 10, 10, 5, 500000000007⟩ 5 rfl,
   rfl,
   C2_reward_accumulator_monotone.2 ⟨2, 4, 9, 0, false⟩ ⟨2, 4, 3000000009, 6, false⟩ 6
     rfl⟩

/-- C5 counterexample: `get_multiplier_for_days` is applied to an i64 day
count, and the Rust `match` sends every negative day count to the diamond
multiplier, so the function is not monotone over its whole domain:
`-1 ≤ 0` but `multiplier(-1) = 250 > 100 = multiplier(0)`. -/
theorem C5_counterexample :
    (-1 : Int) ≤ 0 ∧
    ¬ RewardMath.get_multiplier_for_days (-1) ≤ RewardMath.get_multiplier_for_days 0 := by
  constructor
  · decide
  · decide

/-- C5 (amended): restricted to nonnegative day counts the multiplier is
monotone and equals the table `{0-6: 100, 7-29: 150, 30-89: 200, 90+: 250}`;
and for a user with no early-holder bonus, `UserStake::get_multiplier`
agrees with `get_multiplier_for_days` of the truncated elapsed-day count. -/
theorem C5_multiplier_monotone_and_table :
    (∀ d1 d2 : Int, 0 ≤ d1 → d1 ≤ d2 →
      RewardMath.get_multiplier_for_days d1 ≤ RewardMath.get_multiplier_for_days d2) ∧
    (∀ d : Int,
      (0 ≤ d → d ≤ 6 → RewardMath.get_multiplier_for_days d = 100) ∧
      (7 ≤ d → d ≤ 29 → RewardMath.get_multiplier_for_days d = 150) ∧
      (30 ≤ d → d ≤ 89 → RewardMath.get_multiplier_for_days d = 200) ∧
      (90 ≤ d → RewardMath.get_multiplier_for_days d = 250)) ∧
    (∀ (u : Emergency.UserStake) (t : Int), u.early_holder_tier = 0 →
      u.get_multiplier t =
        RewardMath.get_multiplier_for_days (Int.tdiv (t - u.stake_start_time) 86400)) := by
  refine ⟨?_, ?_, ?_⟩
  · intro d1 d2 h0 h12
    unfold RewardMath.get_multiplier_for_days
    unfold RewardMath.MULTIPLIER_BRONZE RewardMath.MULTIPLIER_SILVER
      RewardMath.MULTIPLIER_GOLD RewardMath.MULTIPLIER_DIAMOND
    split_ifs <;> omega
  · intro d
    unfold RewardMath.get_multiplier_for_days
    unfold RewardMath.MULTIPLIER_BRONZE RewardMath.MULTIPLIER_SILVER
      RewardMath.MULTIPLIER_GOLD RewardMath.MULTIPLIER_DIAMOND
    refine ⟨?_, ?_, ?_, ?_⟩ <;> intros <;> split_ifs <;> omega
  · intro u t h0
    unfold Emergency.UserStake.get_multiplier RewardMath.get_multiplier_for_days
    unfold RewardMath.MULTIPLIER_BRONZE RewardMath.MULTIPLIER_SILVER
      RewardMath.MULTIPLIER_GOLD RewardMath.MULTIPLIER_DIAMOND
    simp only [h0]
    split_ifs <;> simp_all

/-- Witness for C5 (amended): a tier-boundary pair and a table entry. -/
theorem C5_multiplier_monotone_and_table_witness :
    RewardMath.get_multiplier_for_days 7 ≤ RewardMath.get_multiplier_for_days 30 ∧
    RewardMath.get_multiplier_for_days 90 = 250 :=
  ⟨C5_multiplier_monotone_and_table.1 7 30 (by decide) (by decide),
   (C5_multiplier_monotone_and_table.2.1 90).2.2.2 (by decide)⟩

/-- C9: the pending-reward computation never underflows: the staking
`calculate_pending` returns exactly the truncated-saturating difference of
the accumulated share and `reward_debt`, so it returns 0 whenever the debt
equals (or exceeds) the accumulated share; the kr8tiv
`calculate_pending_rewards` likewise returns 0 when
`reward_per_token_paid` equals the pool accumulator. -/
theorem C9_pending_never_underflows :
    (∀ (pool : Staking.Pool) (u : Staking.UserStake) (v : Nat),
      Staking.calculate_pending pool u = .ok v →
      v = Staking.accumulatedShare pool u - u.reward_debt ∧
      (Staking.accumulatedShare pool u ≤ u.reward_debt → v = 0) ∧
      (u.reward_debt = Staking.accumulatedShare pool u → v = 0)) ∧
    (∀ (kp : Kr8tiv.StakingPool) (ku : Kr8tiv.UserStake) (v : Nat),
      Kr8tiv.calculate_pending_rewards kp ku = .ok v →
      (ku.reward_per_token_paid = kp.reward_per_token_stored → v = 0)) := by
  constructor
  · intro pool u v h
    unfold Staking.calculate_pending at h
    simp only [bind, Except.bind, pure, Except.pure] at h
    repeat' split at h
    all_goals injection h
    all_goals subst_vars
    unfold Staking.accumulatedShare
    refine ⟨rfl, ?_, ?_⟩ <;> omega
  · intro kp ku v h
    unfold Kr8tiv.calculate_pending_rewards at h
    simp only [bind, Except.bind, pure, Except.pure] at h
    repeat' split at h
    all_goals injection h
    all_goals subst_vars
    · intro _; rfl
    · intro hp
      rw [hp]
      simp

/-- Witness for C9: a user whose reward debt equals the accumulated share
(staking) and whose paid accumulator equals the stored accumulator
(kr8tiv); both computations return 0. -/
theorem C9_pending_never_underflows_witness :
    Staking.calculate_pending ⟨0, 0, 0, 0, 0, 1000000000000⟩ ⟨0, 3, 0, 3, 0, 0⟩ = .ok 0 ∧
    (0 : Nat) = Staking.accumulatedShare ⟨0, 0, 0, 0, 0, 1000000000000⟩ ⟨0, 3, 0, 3, 0, 0⟩
      - (⟨0, 3, 0, 3, 0, 0⟩ : Staking.UserStake).reward_debt ∧
    Kr8tiv.calculate_pending_rewards ⟨0, 5, 7, 0, false⟩ ⟨5, 0, 0, 7, 0, 0, 0, 0⟩ = .ok 0 ∧
    (0 : Nat) = 0 :=
  ⟨rfl,
   (C9_pending_never_underflows.1 ⟨0, 0, 0, 0, 0, 1000000000000⟩ ⟨0, 3, 0, 3, 0, 0⟩ 0 rfl).1,
   rfl,
   C9_pending_never_underflows.2 ⟨0, 5, 7, 0, false⟩ ⟨5, 0, 0, 7, 0, 0, 0, 0⟩ 0 rfl rfl⟩

/-- C8: `emergency_unstake` fails with `NotInEmergencyMode` whenever the
pool is not in emergency mode (the transaction aborts, so no state is
retained); in emergency mode, for the stake's owner, it zeroes the caller's
`staked_amount` and `pending_rewards` with no reward settlement (the
timestamps are untouched) and decrements the pool totals by exactly the
previous staked amount (the `saturating_sub` is exact when the pool
invariant `staked_amount ≤ total_staked` holds). -/
theorem C8_emergency_unstake_gating (pool : Emergency.GlobalPool)
    (u : Emergency.UserStake) (caller : Nat) :
    (pool.emergency_mode = false →
      Emergency.emergency_unstake pool u caller = .error .NotInEmergencyMode) ∧
    (pool.emergency_mode = true → u.owner = caller →
      Emergency.emergency_unstake pool u caller = .ok
        ({ pool with total_staked := pool.total_staked - u.staked_amount,
                     total_stakers := pool.total_stakers - 1 },
         { u with staked_amount := 0, pending_rewards := 0 }, u.staked_amount) ∧
      (u.staked_amount ≤ pool.total_staked →
        (pool.total_staked - u.staked_amount) + u.staked_amount = pool.total_staked)) := by
  constructor
  · intro hm
    unfold Emergency.emergency_unstake
    simp [hm, bind, Except.bind, throw, throwThe, MonadExceptOf.throw,
      Functor.map, Except.map, pure, Except.pure]
  · intro hm howner
    refine ⟨?_, fun hle => by omega⟩
    unfold Emergency.emergency_unstake
    simp [hm, howner, bind, Except.bind, throw, throwThe, MonadExceptOf.throw,
      Functor.map, Except.map, pure, Except.pure]

/-- Witness for C8: both branches at a concrete pool and stake. -/
theorem C8_emergency_unstake_gating_witness :
    Emergency.emergency_unstake ⟨100, 2, 0, 1, false, false, 0⟩
      ⟨9, 40, 0, 0, 11, false, 0, 0, 0⟩ 9 = .error .NotInEmergencyMode ∧
    Emergency.emergency_unstake ⟨100, 2, 0, 1, true, true, 0⟩
      ⟨9, 40, 0, 0, 11, false, 0, 0, 0⟩ 9 = .ok
      ({ total_staked := 60, total_stakers := 1, total_rewards_distributed := 0,
         reward_rate := 1, is_paused := true, emergency_mode := true,
         last_update_time := 0 },
       { owner := 9, staked_amount := 0, stake_start_time := 0, last_claim_time := 0,
         pending_rewards := 0, unstake_requested := false, unstake_available_time := 0,
         early_holder_tier := 0, total_claimed := 0 }, 40) :=
  ⟨(C8_emergency_unstake_gating ⟨100, 2, 0, 1, false, false, 0⟩
      ⟨9, 40, 0, 0, 11, false, 0, 0, 0⟩ 9).1 rfl,
   ((C8_emergency_unstake_gating ⟨100, 2, 0, 1, true, true, 0⟩
      ⟨9, 40, 0, 0, 11, false, 0, 0, 0⟩ 9).2 rfl rfl).1⟩

/-- C10: in the kr8tiv variant, `claim_rewards` fails with
`InsufficientRewardBalance` whenever the reward vault's lamport balance is
below the multiplier-adjusted reward amount; the check sits before the
lamport move and before any write to `pending_rewards`,
`reward_per_token_paid` or `total_rewards_claimed`, and the aborted
transaction retains no state change. -/
theorem C10_claim_rewards_vault_check (pool : Kr8tiv.StakingPool)
    (u : Kr8tiv.UserStake) (vault now : Nat) (p1 : Kr8tiv.StakingPool) (pend : Nat)
    (h1 : Kr8tiv.update_rewards pool now = .ok p1)
    (h2 : Kr8tiv.calculate_pending_rewards p1 u = .ok pend)
    (h3 : u.pending_rewards + pend ≤ U64MAX)
    (h4 : 0 < u.pending_rewards + pend)
    (h5 : vault < ((u.pending_rewards + pend) *
        Kr8tiv.get_time_multiplier u.stake_start_time now /
          Kr8tiv.MULTIPLIER_PRECISION) % U64MOD) :
    Kr8tiv.claim_rewards pool u vault now = .error .InsufficientRewardBalance := by
  have hmul : (u.pending_rewards + pend) *
      Kr8tiv.get_time_multiplier u.stake_start_time now < U128MOD := by
    calc (u.pending_rewards + pend) *
        Kr8tiv.get_time_multiplier u.stake_start_time now
        ≤ U64MAX * 2500000 :=
          Nat.mul_le_mul h3 (Kr8tiv.get_time_multiplier_le _ _)
      _ < U128MOD := by norm_num [U64MAX, U128MOD]
  unfold Kr8tiv.claim_rewards
  simp only [h1, h2, bind, Except.bind]
  rw [if_neg (by omega), if_neg (by omega), if_neg (not_le.mpr hmul), if_pos h5]
  rfl

/-- Witness for C10: a user with 10 pending lamports, a base multiplier and
a vault holding only 5 lamports. -/
theorem C10_claim_rewards_vault_check_witness :
    Kr8tiv.claim_rewards ⟨0, 100, 0, 0, false⟩ ⟨0, 0, 0, 0, 10, 0, 0, 0⟩ 5 1000 =
      .error .InsufficientRewardBalance :=
  C10_claim_rewards_vault_check ⟨0, 100, 0, 0, false⟩ ⟨0, 0, 0, 0, 10, 0, 0, 0⟩ 5 1000
    ⟨0, 100, 0, 1000, false⟩ 0 rfl rfl (by decide) (by decide) (by decide)

/-- C6: for a user stake with an active cooldown (`cooldown_amount > 0`):
one second (or more) before `cooldown_end` the kr8tiv `complete_unstake`
fails with `CooldownNotComplete` (the transaction aborts with no state
change); at or after `cooldown_end` — under the reachable-state invariants
`cooldown_amount ≤ amount ≤ total_staked` and no arithmetic overflow — it
succeeds, clearing `cooldown_amount` and `cooldown_end` to 0, after which
any immediately repeated call fails with `NoCooldownActive`. -/
theorem C6_complete_unstake_cooldown_gating (pool : Kr8tiv.StakingPool)
    (u : Kr8tiv.UserStake) (now : Nat) (hcd : 0 < u.cooldown_amount) :
    (now < u.cooldown_end →
      Kr8tiv.complete_unstake pool u now = .error .CooldownNotComplete) ∧
    (∀ (p1 : Kr8tiv.StakingPool) (pend : Nat),
      u.cooldown_end ≤ now →
      Kr8tiv.update_rewards pool now = .ok p1 →
      Kr8tiv.calculate_pending_rewards p1 u = .ok pend →
      u.pending_rewards + pend ≤ U64MAX →
      u.cooldown_amount ≤ u.amount →
      u.cooldown_amount ≤ p1.total_staked →
      Kr8tiv.complete_unstake pool u now = .ok
        ({ p1 with total_staked := p1.total_staked - u.cooldown_amount },
         { u with amount := u.amount - u.cooldown_amount,
                  pending_rewards := u.pending_rewards + pend,
                  cooldown_amount := 0, cooldown_end := 0,
                  reward_per_token_paid := p1.reward_per_token_stored,
                  stake_start_time :=
                    if u.amount - u.cooldown_amount = 0 then 0
                    else u.stake_start_time }) ∧
      (∀ (t2 : Nat) (q : Kr8tiv.StakingPool),
        Kr8tiv.complete_unstake q
          { u with amount := u.amount - u.cooldown_amount,
                   pending_rewards := u.pending_rewards + pend,
                   cooldown_amount := 0, cooldown_end := 0,
                   reward_per_token_paid := p1.reward_per_token_stored,
                   stake_start_time :=
                     if u.amount - u.cooldown_amount = 0 then 0
                     else u.stake_start_time }
          t2 = .error .NoCooldownActive)) := by
  constructor
  · intro hlt
    unfold Kr8tiv.complete_unstake
    rw [if_neg (by omega), if_pos hlt]
    rfl
  · intro p1 pend hle h1 h2 hadd hua hts
    constructor
    · unfold Kr8tiv.complete_unstake
      rw [if_neg (by omega), if_neg (by omega)]
      simp only [h1, h2, bind, Except.bind]
      rw [if_neg (by omega), if_neg (by omega), if_neg (by omega)]
      rfl
    · intro t2 q
      unfold Kr8tiv.complete_unstake
      rw [if_pos rfl]
      rfl

/-- Witness for C6 at a concrete cooldown of 50 tokens ending at time 1000:
a call at 999 fails, a call at 1000 succeeds and clears the cooldown, and a
repeat call fails with `NoCooldownActive`. -/
theorem C6_complete_unstake_cooldown_gating_witness :
    Kr8tiv.complete_unstake ⟨0, 100, 0, 0, false⟩ ⟨100, 3, 3, 0, 2, 0, 50, 1000⟩ 999 =
      .error .CooldownNotComplete ∧
    Kr8tiv.complete_unstake ⟨0, 100, 0, 0, false⟩ ⟨100, 3, 3, 0, 2, 0, 50, 1000⟩ 1000 =
      .ok (⟨0, 50, 0, 1000, false⟩, ⟨50, 3, 3, 0, 2, 0, 0, 0⟩) ∧
    Kr8tiv.complete_unstake ⟨0, 50, 0, 1000, false⟩ ⟨50, 3, 3, 0, 2, 0, 0, 0⟩ 2000 =
      .error .NoCooldownActive :=
  ⟨(C6_complete_unstake_cooldown_gating ⟨0, 100, 0, 0, false⟩
      ⟨100, 3, 3, 0, 2, 0, 50, 1000⟩ 999 (by decide)).1 (by decide),
   ((C6_complete_unstake_cooldown_gating ⟨0, 100, 0, 0, false⟩
      ⟨100, 3, 3, 0, 2, 0, 50, 1000⟩ 1000 (by decide)).2 ⟨0, 100, 0, 1000, false⟩ 0
      (by decide) rfl rfl (by decide) (by decide) (by decide)).1,
   ((C6_complete_unstake_cooldown_gating ⟨0, 100, 0, 0, false⟩
      ⟨100, 3, 3, 0, 2, 0, 50, 1000⟩ 1000 (by decide)).2 ⟨0, 100, 0, 1000, false⟩ 0
      (by decide) rfl rfl (by decide) (by decide) (by decide)).2 2000
      ⟨0, 50, 0, 1000, false⟩⟩

/-- Helper: shape of a successful `approve_emergency_action`: the approval
list grows by exactly the signer, the executed flag and threshold are
untouched, the checks passed, and the returned flag is `is_approved` of the
updated record. -/
theorem Emergency.approve_ok_spec
    (pd : Emergency.PendingEmergencyAction) (admin : Emergency.AdminAuthority)
    (s : Nat) (now : Int) (p' : Emergency.PendingEmergencyAction) (b : Bool)
    (h : Emergency.approve_emergency_action pd admin s now = .ok (p', b)) :
    p'.approvals = pd.approvals ++ [s] ∧
    p'.executed = pd.executed ∧
    p'.required_approvals = pd.required_approvals ∧
    pd.executed = false ∧
    pd.has_approved s = false ∧
    b = p'.is_approved := by
  unfold Emergency.approve_emergency_action at h
  simp only [bind, Except.bind, pure, Except.pure] at h
  repeat' split at h
  all_goals injection h
  rename_i hpair
  injection hpair with h1 h2
  subst h1
  subst h2
  refine ⟨rfl, rfl, rfl, ?_, ?_, rfl⟩
  · simp_all
  · simp_all

/-- C7: `approve_emergency_action` rejects an already-executed action, an
expired action, and a duplicate approval; a successful approval appends
exactly the caller and returns true iff the threshold is met; and over all
states reachable through the propose/approve workflow, the approvals list
is duplicate-free and `executed = true` only past the threshold. -/
theorem C7_approve_emergency_action_invariants :
    (∀ (pd : Emergency.PendingEmergencyAction) (admin : Emergency.AdminAuthority)
       (s : Nat) (now : Int),
      admin.is_admin s = true →
      (pd.executed = true →
        Emergency.approve_emergency_action pd admin s now = .error .AlreadyExecuted) ∧
      (pd.executed = false → pd.expires_at ≤ now →
        Emergency.approve_emergency_action pd admin s now = .error .ActionExpired) ∧
      (pd.executed = false → now < pd.expires_at → pd.has_approved s = true →
        Emergency.approve_emergency_action pd admin s now = .error .AlreadyApproved)) ∧
    (∀ (pd : Emergency.PendingEmergencyAction) (admin : Emergency.AdminAuthority)
       (s : Nat) (now : Int) (p' : Emergency.PendingEmergencyAction) (b : Bool),
      Emergency.approve_emergency_action pd admin s now = .ok (p', b) →
      p'.approvals = pd.approvals ++ [s] ∧
      (b = true ↔ p'.required_approvals ≤ p'.approvals.length)) ∧
    (∀ (admin : Emergency.AdminAuthority) (pd : Emergency.PendingEmergencyAction),
      Emergency.Reachable admin pd →
      pd.approvals.Nodup ∧
      (pd.executed = true → pd.required_approvals ≤ pd.approvals.length)) := by
  refine ⟨?_, ?_, ?_⟩
  · intro pd admin s now ha
    refine ⟨?_, ?_, ?_⟩
    · intro hexec
      unfold Emergency.approve_emergency_action
      rw [if_neg (by simp [ha]), if_pos hexec]
      rfl
    · intro hexec hle
      unfold Emergency.approve_emergency_action
      rw [if_neg (by simp [ha]), if_neg (by simp [hexec]),
        if_pos (show ¬ now < pd.expires_at by omega)]
      rfl
    · intro hexec hlt happ
      unfold Emergency.approve_emergency_action
      rw [if_neg (by simp [ha]), if_neg (by simp [hexec]),
        if_neg (not_not_intro hlt), if_pos happ]
      rfl
  · intro pd admin s now p' b h
    obtain ⟨happ, _, _, _, _, hb⟩ := Emergency.approve_ok_spec pd admin s now p' b h
    refine ⟨happ, ?_⟩
    rw [hb]
    simp [Emergency.PendingEmergencyAction.is_approved]
  · intro admin pd hreach
    induction hreach with
    | propose s a now pd hp =>
      unfold Emergency.propose_emergency_action at hp
      simp only [bind, Except.bind, pure, Except.pure] at hp
      repeat' split at hp
      all_goals injection hp
      rename_i hpd
      subst hpd
      exact ⟨by simp, by simp⟩
    | approve pd s now pd' b _ hstep ih =>
      obtain ⟨happ, hexec, _, hpdex, hhas, _⟩ :=
        Emergency.approve_ok_spec pd admin s now pd' b hstep
      obtain ⟨ihnd, _⟩ := ih
      constructor
      · rw [happ]
        have hnotmem : s ∉ pd.approvals := by
          simpa [Emergency.PendingEmergencyAction.has_approved] using hhas
        simp [List.nodup_append, ihnd, hnotmem]
      · rw [hexec, hpdex]
        intro hfalse
        cases hfalse

/-- Witness for C7: a two-of-three admin set; a duplicate approval by the
proposer fails, a fresh approval appends and meets the threshold, and the
freshly proposed state is reachable with a duplicate-free approval list. -/
theorem C7_approve_emergency_action_invariants_witness :
    Emergency.approve_emergency_action
      ⟨.PauseAll, 1, 0, 172800, [1], 2, false⟩ ⟨1, 2, 3, 2, true⟩ 1 5 =
      .error .AlreadyApproved ∧
    (⟨.PauseAll, 1, 0, 172800, [1, 2], 2, false⟩ :
      Emergency.PendingEmergencyAction).approvals = [1] ++ [2] ∧
    (true = true ↔ (2 : Nat) ≤ ([1, 2] : List Nat).length) ∧
    ([1] : List Nat).Nodup :=
  ⟨((C7_approve_emergency_action_invariants.1
      ⟨.PauseAll, 1, 0, 172800, [1], 2, false⟩ ⟨1, 2, 3, 2, true⟩ 1 5 rfl).2.2
      rfl (by decide) rfl),
   (C7_approve_emergency_action_invariants.2.1
      ⟨.PauseAll, 1, 0, 172800, [1], 2, false⟩ ⟨1, 2, 3, 2, true⟩ 2 5
      ⟨.PauseAll, 1, 0, 172800, [1, 2], 2, false⟩ true rfl).1,
   (C7_approve_emergency_action_invariants.2.1
      ⟨.PauseAll, 1, 0, 172800, [1], 2, false⟩ ⟨1, 2, 3, 2, true⟩ 2 5
      ⟨.PauseAll, 1, 0, 172800, [1, 2], 2, false⟩ true rfl).2,
   (C7_approve_emergency_action_invariants.2.2 ⟨1, 2, 3, 2, true⟩
      ⟨.PauseAll, 1, 0, 172800, [1], 2, false⟩
      (Emergency.Reachable.propose 1 .PauseAll 0
        ⟨.PauseAll, 1, 0, 172800, [1], 2, false⟩ rfl)).1⟩

/-- Helper: the truncating u128 cast is the identity on `[0, 2^128)`. -/
theorem i64AsU128_eq_toNat (x : Int) (h0 : 0 ≤ x) (h1 : x < U128MODI) :
    i64AsU128 x = x.toNat := by
  unfold i64AsU128
  unfold U128MODI at h1
  rw [Int.emod_eq_of_lt h0 h1]

/-- Helper: every tier duration is nonnegative and bounded by the claim
interval length. -/
theorem RewardMath.tier_durations_bounds (ss lc cur : Int) (h : lc ≤ cur) :
    0 ≤ (RewardMath.calculate_tier_durations ss lc cur).bronze_seconds ∧
    (RewardMath.calculate_tier_durations ss lc cur).bronze_seconds ≤ cur - lc ∧
    0 ≤ (RewardMath.calculate_tier_durations ss lc cur).silver_seconds ∧
    (RewardMath.calculate_tier_durations ss lc cur).silver_seconds ≤ cur - lc ∧
    0 ≤ (RewardMath.calculate_tier_durations ss lc cur).gold_seconds ∧
    (RewardMath.calculate_tier_durations ss lc cur).gold_seconds ≤ cur - lc ∧
    0 ≤ (RewardMath.calculate_tier_durations ss lc cur).diamond_seconds ∧
    (RewardMath.calculate_tier_durations ss lc cur).diamond_seconds ≤ cur - lc := by
  simp only [RewardMath.calculate_tier_durations, RewardMath.TIER_BRONZE_END,
    RewardMath.TIER_SILVER_END, RewardMath.TIER_GOLD_END, RewardMath.SECONDS_PER_DAY]
  split_ifs <;> omega

/-- Helper: a successful `calculate_tier_reward` returns the exact
specification value saturated at `u64::MAX`. -/
theorem RewardMath.calculate_tier_reward_ok (stake rate : Nat) (dur : Int)
    (mult : Nat) (v : Nat) (h0 : 0 ≤ dur) (h1 : dur < U128MODI)
    (h : RewardMath.calculate_tier_reward stake rate dur mult = .ok v) :
    v = min (RewardMath.exactTierReward stake rate dur.toNat mult) U64MAX := by
  unfold RewardMath.calculate_tier_reward at h
  simp only [bind, Except.bind, pure, Except.pure, throw, throwThe,
    MonadExceptOf.throw] at h
  repeat' split at h
  all_goals injection h
  rename_i hmin
  subst hmin
  unfold RewardMath.exactTierReward
  rw [i64AsU128_eq_toNat dur h0 h1]

/-- Helper: a successful tier branch returns the saturated exact value
(also when the duration is zero and the branch shortcuts to 0). -/
theorem RewardMath.tierBranch_ok (stake rate : Nat) (dur : Int) (mult : Nat)
    (v : Nat) (h0 : 0 ≤ dur) (h1 : dur < U128MODI)
    (h : RewardMath.tierBranch stake rate dur mult = .ok v) :
    v = min (RewardMath.exactTierReward stake rate dur.toNat mult) U64MAX := by
  unfold RewardMath.tierBranch at h
  split at h
  · exact RewardMath.calculate_tier_reward_ok stake rate dur mult v h0 h1 h
  · rename_i hnot
    injection h with h
    subst h
    have hz : dur = 0 := by omega
    simp [RewardMath.exactTierReward, hz]

/-- Helper: shape of a successful `calculate_tier_rewards`: every tier
reward is the saturated exact specification value for that tier. -/
theorem RewardMath.calculate_tier_rewards_ok (stake rate : Nat)
    (d : RewardMath.TierDurations) (bonus : Nat) (tr : RewardMath.TierRewards)
    (hb0 : 0 ≤ d.bronze_seconds) (hb1 : d.bronze_seconds < U128MODI)
    (hs0 : 0 ≤ d.silver_seconds) (hs1 : d.silver_seconds < U128MODI)
    (hg0 : 0 ≤ d.gold_seconds) (hg1 : d.gold_seconds < U128MODI)
    (hd0 : 0 ≤ d.diamond_seconds) (hd1 : d.diamond_seconds < U128MODI)
    (h : RewardMath.calculate_tier_rewards stake rate d bonus = .ok tr) :
    tr.bronze_rewards = min (RewardMath.exactTierReward stake rate
      d.bronze_seconds.toNat (max RewardMath.MULTIPLIER_BRONZE bonus)) U64MAX ∧
    tr.silver_rewards = min (RewardMath.exactTierReward stake rate
      d.silver_seconds.toNat (max RewardMath.MULTIPLIER_SILVER bonus)) U64MAX ∧
    tr.gold_rewards = min (RewardMath.exactTierReward stake rate
      d.gold_seconds.toNat (max RewardMath.MULTIPLIER_GOLD bonus)) U64MAX ∧
    tr.diamond_rewards = min (RewardMath.exactTierReward stake rate
      d.diamond_seconds.toNat (max RewardMath.MULTIPLIER_DIAMOND bonus)) U64MAX := by
  unfold RewardMath.calculate_tier_rewards at h
  simp only [bind, Except.bind, pure, Except.pure] at h
  repeat' split at h
  all_goals injection h
  subst_vars
  exact ⟨RewardMath.tierBranch_ok _ _ _ _ _ hb0 hb1 (by assumption),
         RewardMath.tierBranch_ok _ _ _ _ _ hs0 hs1 (by assumption),
         RewardMath.tierBranch_ok _ _ _ _ _ hg0 hg1 (by assumption),
         RewardMath.tierBranch_ok _ _ _ _ _ hd0 hd1 (by assumption)⟩

/-- C3 counterexample: at stake `10^19`, rate `10^6`, a one-day bronze
interval, `calculate_rewards` succeeds and returns `u64::MAX`
(18446744073709551615): the final conversion in `calculate_tier_reward`
saturates (`result.min(u64::MAX) as u64`) instead of aborting, and the
returned value is neither the exact mathematical result
(864000000000000000000) nor an `Overflow` abort. -/
theorem C3_counterexample :
    (RewardMath.calculate_rewards
        ⟨10000000000000000000, 0, 0, 86400, 1000000, 100⟩).map
      (fun o => o.total_pending_rewards) = .ok 18446744073709551615 ∧
    RewardMath.specExactRewards ⟨10000000000000000000, 0, 0, 86400, 1000000, 100⟩ =
      864000000000000000000 ∧
    (18446744073709551615 : Nat) ≠ 864000000000000000000 :=
  ⟨rfl, rfl, by norm_num⟩

/-- C3 (amended): the multiplications and additions of `calculate_rewards` /
`calculate_tier_reward` are checked and abort with `Overflow`, but the final
u128-to-u64 conversion of each per-tier quotient saturates at `u64::MAX`
rather than aborting; whenever every per-tier exact value
`stake * rate * seconds * multiplier / (PRECISION * 100)` fits in u64, a
successful call returns exactly the per-tier sum of the specification
formula. -/
theorem C3_rewards_exact_unless_saturated
    (input : RewardMath.RewardCalculationInput)
    (out : RewardMath.RewardCalculationOutput)
    (h : RewardMath.calculate_rewards input = .ok out)
    (hrange : input.current_time - input.last_claim_time < U128MODI)
    (hb : RewardMath.specBronze input ≤ U64MAX)
    (hs : RewardMath.specSilver input ≤ U64MAX)
    (hg : RewardMath.specGold input ≤ U64MAX)
    (hd : RewardMath.specDiamond input ≤ U64MAX) :
    out.total_pending_rewards = RewardMath.specExactRewards input := by
  unfold RewardMath.calculate_rewards RewardMath.checkedAddU64 at h
  simp only [bind, Except.bind, pure, Except.pure, throw, throwThe,
    MonadExceptOf.throw] at h
  split at h
  · injection h
  rename_i hv1
  split at h
  · injection h
  rename_i hv2
  split at h
  · -- zero stake: the exact specification total is 0 as well
    rename_i hz
    injection h with hout
    subst hout
    simp [RewardMath.specExactRewards, RewardMath.specBronze, RewardMath.specSilver,
      RewardMath.specGold, RewardMath.specDiamond, RewardMath.exactTierReward, hz]
  rename_i hz
  -- the tier-rewards call
  split at h
  · injection h
  rename_i tr htr
  have hlc : input.last_claim_time ≤ input.current_time := by omega
  obtain ⟨hb0, hbu, hs0, hsu, hg0, hgu, hd0, hdu⟩ :=
    RewardMath.tier_durations_bounds input.stake_start_time input.last_claim_time
      input.current_time hlc
  obtain ⟨e1, e2, e3, e4⟩ := RewardMath.calculate_tier_rewards_ok
    input.user_stake_amount input.global_reward_rate _ input.early_holder_bonus tr
    hb0 (by omega) hs0 (by omega) hg0 (by omega) hd0 (by omega) htr
  -- the three checked additions
  repeat' split at h
  all_goals injection h
  rename_i x2 v2 h2 x1 v1 h1 x0 v0 h0 hout
  subst hout
  split at h2
  · injection h2
  injection h2 with h2
  subst h2
  split at h1
  · injection h1
  injection h1 with h1
  subst h1
  split at h0
  · injection h0
  injection h0 with h0
  subst h0
  unfold RewardMath.specBronze at hb
  unfold RewardMath.specSilver at hs
  unfold RewardMath.specGold at hg
  unfold RewardMath.specDiamond at hd
  simp only [RewardMath.specExactRewards, RewardMath.specBronze,
    RewardMath.specSilver, RewardMath.specGold, RewardMath.specDiamond]
  rw [e1, e2, e3, e4, Nat.min_eq_left hb, Nat.min_eq_left hs,
    Nat.min_eq_left hg, Nat.min_eq_left hd]

/-- Witness for C3 (amended): the specification scenario — stake `10^9` at
rate `10^6` claimed after one bronze day returns the exact closed-form
value 86400000000. -/
theorem C3_rewards_exact_unless_saturated_witness :
    RewardMath.calculate_rewards ⟨1000000000, 0, 0, 86400, 1000000, 100⟩ =
      .ok ⟨86400000000, ⟨86400000000, 0, 0, 0⟩, 100, ⟨86400, 0, 0, 0⟩⟩ ∧
    (⟨86400000000, ⟨86400000000, 0, 0, 0⟩, 100, ⟨86400, 0, 0, 0⟩⟩ :
        RewardMath.RewardCalculationOutput).total_pending_rewards =
      RewardMath.specExactRewards ⟨1000000000, 0, 0, 86400, 1000000, 100⟩ :=
  ⟨rfl,
   C3_rewards_exact_unless_saturated ⟨1000000000, 0, 0, 86400, 1000000, 100⟩
     ⟨86400000000, ⟨86400000000, 0, 0, 0⟩, 100, ⟨86400, 0, 0, 0⟩⟩ rfl (by decide)
     (by decide) (by decide) (by decide) (by decide)⟩

/-- C4 counterexample: the staking `stake` handler invokes the external
token transfer and only afterwards mutates the balance-determining
bookkeeping (`user.amount`, `user.weight`, `user.reward_debt`,
`pool.total_staked`, `pool.total_weight`): at a concrete fresh stake of 5
tokens the recorded effect trace contains a bookkeeping mutation strictly
after the transfer, so the claimed mutate-before-transfer ordering is
false. -/
theorem C4_counterexample :
    (Staking.stake ⟨0, 259200, 0, 0, 0, 0⟩ ⟨0, 0, 0, 0, 0, 0⟩ 5 10).map
      (fun r => hasMutateAfterTransfer r.2) = .ok true := rfl

set_option maxHeartbeats 1600000 in
/-- C4 (amended): in the cited handlers (staking `stake`, staking
`claim_rewards`, kr8tiv `stake`) every validation precedes the external
transfer, and the reward settlement happens before the transfer, but each
handler applies part of its balance-determining bookkeeping (amounts,
weights, reward debt, pool totals) after invoking the transfer; atomicity
rests on the host discarding the whole transaction on failure, not on a
mutate-before-transfer ordering. -/
theorem C4_bookkeeping_after_transfer :
    (∀ (pool : Staking.Pool) (u : Staking.UserStake) (amount : Nat) (now : Int)
       (r : (Staking.Pool × Staking.UserStake) × List Op),
      Staking.stake pool u amount now = .ok r →
      hasMutateAfterTransfer r.2 = true ∧ hasValidateAfterTransfer r.2 = false) ∧
    (∀ (pool : Staking.Pool) (u : Staking.UserStake) (now : Int)
       (r : (Staking.Pool × Staking.UserStake) × List Op),
      Staking.claim_rewards pool u now = .ok r →
      hasMutateAfterTransfer r.2 = true ∧ hasValidateAfterTransfer r.2 = false) ∧
    (∀ (pool : Kr8tiv.StakingPool) (u : Kr8tiv.UserStake) (amount now : Nat)
       (r : (Kr8tiv.StakingPool × Kr8tiv.UserStake) × List Op),
      Kr8tiv.stake pool u amount now = .ok r →
      hasMutateAfterTransfer r.2 = true ∧ hasValidateAfterTransfer r.2 = false) := by
  refine ⟨?_, ?_, ?_⟩
  · intro pool u amount now r h
    unfold Staking.stake at h
    simp only [bind, Except.bind, pure, Except.pure, throw, throwThe,
      MonadExceptOf.throw] at h
    repeat' split at h
    all_goals injection h
    all_goals subst_vars
    all_goals exact ⟨rfl, rfl⟩
  · intro pool u now r h
    unfold Staking.claim_rewards at h
    simp only [bind, Except.bind, pure, Except.pure, throw, throwThe,
      MonadExceptOf.throw] at h
    repeat' split at h
    all_goals injection h
    all_goals subst_vars
    all_goals refine ⟨?_, ?_⟩
    all_goals rfl
  · intro pool u amount now r h
    unfold Kr8tiv.stake at h
    simp only [bind, Except.bind, pure, Except.pure, throw, throwThe,
      MonadExceptOf.throw] at h
    repeat' split at h
    all_goals injection h
    all_goals subst_vars
    all_goals exact ⟨rfl, rfl⟩

/-- Witness for C4 (amended) at the concrete fresh 5-token stake. -/
theorem C4_bookkeeping_after_transfer_witness :
    hasMutateAfterTransfer
      [Op.validate, Op.mutate, Op.mutate, Op.transfer 5, Op.mutate] = true ∧
    hasValidateAfterTransfer
      [Op.validate, Op.mutate, Op.mutate, Op.transfer 5, Op.mutate] = false :=
  C4_bookkeeping_after_transfer.1 ⟨0, 259200, 0, 0, 0, 0⟩ ⟨0, 0, 0, 0, 0, 0⟩ 5 10
    (⟨⟨0, 259200, 5, 5, 10, 0⟩, ⟨5, 5, 10, 0, 0, 0⟩⟩,
      [Op.validate, Op.mutate, Op.mutate, Op.transfer 5, Op.mutate]) rfl
